import Mathlib

/-!
Shallow embedding of `src/mi-scale/src/Xiaomi_Scale_Body_Metrics.py`.

Python floats are modelled as exact rationals (`ℚ`); `int`-typed inputs
(`age`, `impedance`) as `ℤ`.  The constructor's validation (which raises
`ValueError`) is modelled with `Except ValidationError`; the reachable
`ZeroDivisionError` inside `get_metabolic_age` is modelled with
`Except PyError`.  Every other method is a pure total function, exactly as
in the source.
-/

namespace MiScale

/-- The `sex` input: the Python code compares against the literal `'female'`. -/
inductive Sex where
  | male
  | female
deriving DecidableEq, Repr

/-- Which field a construction-time `ValueError` cites, with the offending
value, mirroring the four `raise ValueError(...)` messages in `__init__`. -/
inductive ValidationError where
  | height (v : ℚ)
  | weight (v : ℚ)
  | age (v : ℤ)
  | impedance (v : ℤ)
deriving DecidableEq, Repr

/-- Runtime errors reachable after construction. -/
inductive PyError where
  | zeroDivision
deriving DecidableEq, Repr

/-- The stored measurement input (the five `self.*` fields). -/
structure BodyMetrics where
  weight : ℚ
  height : ℚ
  age : ℤ
  sex : Sex
  impedance : ℤ
deriving DecidableEq, Repr

/-- `BodyMetrics.__init__`: stores the fields, then validates them in source
order (height, weight, age, impedance), raising on the first failure. -/
def BodyMetrics.init (weight height : ℚ) (age : ℤ) (sex : Sex) (impedance : ℤ) :
    Except ValidationError BodyMetrics :=
  if ¬ (50 ≤ height ∧ height ≤ 220) then .error (.height height)
  else if ¬ (10 ≤ weight ∧ weight ≤ 200) then .error (.weight weight)
  else if ¬ (1 ≤ age ∧ age ≤ 99) then .error (.age age)
  else if 3000 < impedance then .error (.impedance impedance)
  else .ok ⟨weight, height, age, sex, impedance⟩

/-- `BodyMetrics._check_value_overflow`: `min(max(value, minimum), maximum)`. -/
def check_value_overflow (value minimum maximum : ℚ) : ℚ :=
  min (max value minimum) maximum

/-- `get_lbm_coefficient`. -/
def BodyMetrics.get_lbm_coefficient (s : BodyMetrics) : ℚ :=
  let lbm : ℚ :=
    if s.sex = Sex.female then
      0.14 * (s.impedance : ℚ) + 0.34 * s.height + 0.33 * s.weight
        - 0.16 * (s.age : ℚ) - 6.68
    else
      0.24 * (s.impedance : ℚ) + 0.41 * s.height + 0.34 * s.weight
        - 0.16 * (s.age : ℚ) - 10.68
  check_value_overflow lbm 10 120

/-- `get_bmr`: Mifflin-St Jeor, clamped to [500, 3000]. -/
def BodyMetrics.get_bmr (s : BodyMetrics) : ℚ :=
  let bmr := 10 * s.weight + 6.25 * s.height - 5 * (s.age : ℚ)
  let bmr := bmr + (if s.sex = Sex.male then 5 else -161)
  check_value_overflow bmr 500 3000

/-- `get_bmi`: `weight / height_m ** 2`, clamped to [10, 90]. -/
def BodyMetrics.get_bmi (s : BodyMetrics) : ℚ :=
  let height_m := s.height / 100
  let bmi := s.weight / height_m ^ 2
  check_value_overflow bmi 10 90

/-- `get_fat_percentage`: BMI-and-age estimate, averaged with the
impedance-derived estimate only when `impedance > 0`, clamped to [3, 60]. -/
def BodyMetrics.get_fat_percentage (s : BodyMetrics) : ℚ :=
  let bmi := s.get_bmi
  let fat : ℚ :=
    if s.sex = Sex.female then
      (1.20 * bmi) + (0.23 * (s.age : ℚ)) - 5.4 - 10.8
    else
      (1.20 * bmi) + (0.23 * (s.age : ℚ)) - 16.2
  let fat : ℚ :=
    if 0 < s.impedance then
      let lbm := s.get_lbm_coefficient
      let fat_impedance := (s.weight - lbm) / s.weight * 100
      (fat + fat_impedance) / 2
    else fat
  check_value_overflow fat 3 60

/-- `get_water_percentage`: `(lbm * 0.73 / weight) * 100`, clamped to [35, 75]. -/
def BodyMetrics.get_water_percentage (s : BodyMetrics) : ℚ :=
  let lbm := s.get_lbm_coefficient
  let water := (lbm * 0.73 / s.weight) * 100
  check_value_overflow water 35 75

/-- `get_bone_mass`: sex-specific fraction of weight, clamped to [1, 4]. -/
def BodyMetrics.get_bone_mass (s : BodyMetrics) : ℚ :=
  let bone : ℚ :=
    if s.sex = Sex.female then s.weight * 0.144 else s.weight * 0.154
  check_value_overflow bone 1.0 4.0

/-- `get_lean_mass`: weight minus fat mass, clamped to [10, 120]. -/
def BodyMetrics.get_lean_mass (s : BodyMetrics) : ℚ :=
  let fat_mass := s.weight * (s.get_fat_percentage / 100)
  let lean_mass := s.weight - fat_mass
  check_value_overflow lean_mass 10 120

/-- `get_muscle_mass`: lean mass minus water mass minus bone mass, clamped to
the sex-specific range ([15,45] female, [25,55] male). -/
def BodyMetrics.get_muscle_mass (s : BodyMetrics) : ℚ :=
  let lean_mass := s.get_lean_mass
  let water := (s.get_water_percentage / 100) * s.weight
  let bone := s.get_bone_mass
  let muscle := lean_mass - water - bone
  if s.sex = Sex.female then check_value_overflow muscle 15 45
  else check_value_overflow muscle 25 55

/-- `get_visceral_fat`: waist proxy from BMI, sex-specific linear terms, fat
adjustment, clamped to [1, 50]. -/
def BodyMetrics.get_visceral_fat (s : BodyMetrics) : ℚ :=
  let waist := s.height * 0.5 * (s.get_bmi / 25)
  let vfal : ℚ :=
    if s.sex = Sex.female then
      waist * 0.47 - (s.age : ℚ) * 0.13 + 2.5
    else
      waist * 0.58 - (s.age : ℚ) * 0.15 + 3.0
  let vfal := vfal + (s.get_fat_percentage - 20) * 0.2
  check_value_overflow vfal 1 50

/-- `get_ideal_weight`: `22 * height_m ** 2`, clamped to [10, 120]. -/
def BodyMetrics.get_ideal_weight (s : BodyMetrics) : ℚ :=
  let height_m := s.height / 100
  let ideal := 22 * height_m ^ 2
  check_value_overflow ideal 10 120

/-- Python 3 `round` to an integer: round-half-to-even (banker's rounding). -/
def pyRoundInt (q : ℚ) : ℤ :=
  if q - ⌊q⌋ < 1/2 then ⌊q⌋
  else if 1/2 < q - ⌊q⌋ then ⌊q⌋ + 1
  else if ⌊q⌋ % 2 = 0 then ⌊q⌋ else ⌊q⌋ + 1

/-- Python 3 `round(q, ndigits)`. -/
def pyRound (q : ℚ) (ndigits : ℕ) : ℚ :=
  (pyRoundInt (q * 10 ^ ndigits) : ℚ) / 10 ^ ndigits

/-- Tag of the dict returned by `get_fat_mass_to_ideal`. -/
inductive FatMassDirection where
  | to_lose
  | to_gain
deriving DecidableEq, Repr

/-- The dict `{'type': ..., 'mass': ...}` returned by `get_fat_mass_to_ideal`. -/
structure FatMassToIdeal where
  type : FatMassDirection
  mass : ℚ
deriving DecidableEq, Repr

/-- `get_fat_mass_to_ideal`: signed difference between current and target fat
mass, tagged with a direction, magnitude rounded to 2 decimals. -/
def BodyMetrics.get_fat_mass_to_ideal (s : BodyMetrics) : FatMassToIdeal :=
  let target_fat : ℚ := if s.sex = Sex.male then 15 else 22
  let target_fat_mass := s.get_ideal_weight * (target_fat / 100)
  let current_fat_mass := s.weight * (s.get_fat_percentage / 100)
  let diff := current_fat_mass - target_fat_mass
  if 0 < diff then ⟨FatMassDirection.to_lose, pyRound diff 2⟩
  else ⟨FatMassDirection.to_gain, pyRound |diff| 2⟩

/-- `get_protein_percentage`: `(muscle * 0.19 / weight) * 100`, clamped to [5, 32]. -/
def BodyMetrics.get_protein_percentage (s : BodyMetrics) : ℚ :=
  let muscle_mass := s.get_muscle_mass
  let protein_mass := muscle_mass * 0.19
  let protein_percentage := (protein_mass / s.weight) * 100
  check_value_overflow protein_percentage 5 32

/-- `get_body_type`: 3x3 grid over fat percentage and muscle mass with
sex-specific threshold bands. -/
def BodyMetrics.get_body_type (s : BodyMetrics) : ℤ :=
  let fat_pct := s.get_fat_percentage
  let muscle_mass := s.get_muscle_mass
  let fat_low : ℚ := if s.sex = Sex.female then 18 else 10
  let fat_high : ℚ := if s.sex = Sex.female then 28 else 20
  let muscle_low : ℚ := if s.sex = Sex.female then 20 else 30
  let muscle_high : ℚ := if s.sex = Sex.female then 35 else 45
  let factor : ℤ :=
    if fat_pct > fat_high then 0
    else if fat_pct < fat_low then 2
    else 1
  if muscle_mass > muscle_high then 2 + (factor * 3)
  else if muscle_mass < muscle_low then factor * 3
  else 1 + (factor * 3)

/-- `get_metabolic_age`.  The Python code computes
`ratio = bmr / expected_bmr` BEFORE the `if ratio > 0` guard, so when
`expected_bmr == 0` the method raises `ZeroDivisionError`; that raise is
modelled by the `.error` branch. -/
def BodyMetrics.get_metabolic_age (s : BodyMetrics) : Except PyError ℚ :=
  let bmr := s.get_bmr
  let expected_bmr : ℚ :=
    if s.sex = Sex.female then
      10 * s.weight + 6.25 * s.height - 5 * (s.age : ℚ) - 161
    else
      10 * s.weight + 6.25 * s.height - 5 * (s.age : ℚ) + 5
  if expected_bmr = 0 then .error PyError.zeroDivision
  else
    let ratio := bmr / expected_bmr
    let metabolic_age : ℚ := if 0 < ratio then (s.age : ℚ) / ratio else (s.age : ℚ)
    .ok (check_value_overflow metabolic_age 15 80)

/-- The dict returned by `get_all_metrics`, one field per key. -/
structure AllMetrics where
  bmi : ℚ
  body_fat_pct : ℚ
  water_pct : ℚ
  bone_mass : ℚ
  muscle_mass : ℚ
  lbm : ℚ
  bmr : ℚ
  visceral_fat : ℚ
  ideal_weight : ℚ
  metabolic_age : ℚ
  protein_pct : ℚ
  body_type : ℤ
deriving DecidableEq, Repr

/-- `get_all_metrics`: every accessor, rounded to its documented precision.
The `ZeroDivisionError` reachable inside `get_metabolic_age` propagates. -/
def BodyMetrics.get_all_metrics (s : BodyMetrics) : Except PyError AllMetrics :=
  match s.get_metabolic_age with
  | .error e => .error e
  | .ok ma =>
      .ok
        { bmi := pyRound s.get_bmi 1
          body_fat_pct := pyRound s.get_fat_percentage 1
          water_pct := pyRound s.get_water_percentage 1
          bone_mass := pyRound s.get_bone_mass 2
          muscle_mass := pyRound s.get_muscle_mass 2
          lbm := pyRound s.get_lean_mass 2
          bmr := pyRound s.get_bmr 0
          visceral_fat := pyRound s.get_visceral_fat 1
          ideal_weight := pyRound s.get_ideal_weight 1
          metabolic_age := pyRound ma 0
          protein_pct := pyRound s.get_protein_percentage 1
          body_type := s.get_body_type }

/-- Validity: exactly the inputs `__init__` accepts. -/
abbrev Valid (s : BodyMetrics) : Prop :=
  (50 ≤ s.height ∧ s.height ≤ 220) ∧ (10 ≤ s.weight ∧ s.weight ≤ 200) ∧
    (1 ≤ s.age ∧ s.age ≤ 99) ∧ s.impedance ≤ 3000

/-!
Method-call wrappers: a Python method call `s.m()` returns its value together
with the object state after the call.  None of the methods of `BodyMetrics`
contains an attribute assignment, so each call leaves the object unchanged;
the wrappers record exactly that small-step semantics.
-/

/-- Calling `get_lbm_coefficient` on the object: value and post-state. -/
def BodyMetrics.call_get_lbm_coefficient (s : BodyMetrics) : ℚ × BodyMetrics :=
  (s.get_lbm_coefficient, s)

/-- Calling `get_bmr` on the object: value and post-state. -/
def BodyMetrics.call_get_bmr (s : BodyMetrics) : ℚ × BodyMetrics :=
  (s.get_bmr, s)

/-- Calling `get_bmi` on the object: value and post-state. -/
def BodyMetrics.call_get_bmi (s : BodyMetrics) : ℚ × BodyMetrics :=
  (s.get_bmi, s)

/-- Calling `get_fat_percentage` on the object: value and post-state. -/
def BodyMetrics.call_get_fat_percentage (s : BodyMetrics) : ℚ × BodyMetrics :=
  (s.get_fat_percentage, s)

/-- Calling `get_water_percentage` on the object: value and post-state. -/
def BodyMetrics.call_get_water_percentage (s : BodyMetrics) : ℚ × BodyMetrics :=
  (s.get_water_percentage, s)

/-- Calling `get_bone_mass` on the object: value and post-state. -/
def BodyMetrics.call_get_bone_mass (s : BodyMetrics) : ℚ × BodyMetrics :=
  (s.get_bone_mass, s)

/-- Calling `get_lean_mass` on the object: value and post-state. -/
def BodyMetrics.call_get_lean_mass (s : BodyMetrics) : ℚ × BodyMetrics :=
  (s.get_lean_mass, s)

/-- Calling `get_muscle_mass` on the object: value and post-state. -/
def BodyMetrics.call_get_muscle_mass (s : BodyMetrics) : ℚ × BodyMetrics :=
  (s.get_muscle_mass, s)

/-- Calling `get_visceral_fat` on the object: value and post-state. -/
def BodyMetrics.call_get_visceral_fat (s : BodyMetrics) : ℚ × BodyMetrics :=
  (s.get_visceral_fat, s)

/-- Calling `get_ideal_weight` on the object: value and post-state. -/
def BodyMetrics.call_get_ideal_weight (s : BodyMetrics) : ℚ × BodyMetrics :=
  (s.get_ideal_weight, s)

/-- Calling `get_fat_mass_to_ideal` on the object: value and post-state. -/
def BodyMetrics.call_get_fat_mass_to_ideal (s : BodyMetrics) :
    FatMassToIdeal × BodyMetrics :=
  (s.get_fat_mass_to_ideal, s)

/-- Calling `get_protein_percentage` on the object: value and post-state. -/
def BodyMetrics.call_get_protein_percentage (s : BodyMetrics) : ℚ × BodyMetrics :=
  (s.get_protein_percentage, s)

/-- Calling `get_body_type` on the object: value and post-state. -/
def BodyMetrics.call_get_body_type (s : BodyMetrics) : ℤ × BodyMetrics :=
  (s.get_body_type, s)

/-- Calling `get_metabolic_age` on the object: outcome and post-state. -/
def BodyMetrics.call_get_metabolic_age (s : BodyMetrics) :
    Except PyError ℚ × BodyMetrics :=
  (s.get_metabolic_age, s)

/-- Calling `get_all_metrics` on the object: outcome and post-state. -/
def BodyMetrics.call_get_all_metrics (s : BodyMetrics) :
    Except PyError AllMetrics × BodyMetrics :=
  (s.get_all_metrics, s)

/-- Fuel-bounded floor of the base-2 logarithm for rationals at least 1:
halve until the value drops below 2. -/
def qLog2Up : ℕ → ℚ → ℤ
  | 0, _ => 0
  | fuel + 1, a => if a < 2 then 0 else qLog2Up fuel (a / 2) + 1

/-- Fuel-bounded floor of the base-2 logarithm for positive rationals below
1: double until the value reaches 1. -/
def qLog2Down : ℕ → ℚ → ℤ
  | 0, _ => 0
  | fuel + 1, a => if 1 ≤ a then 0 else qLog2Down fuel (a * 2) - 1

/-- Floor of the base-2 logarithm of a positive rational. -/
def qFloorLog2 (a : ℚ) : ℤ :=
  if 1 ≤ a then qLog2Up 200 a else qLog2Down 200 a

/-- Round a rational to the nearest IEEE binary64 double: round-to-nearest,
ties-to-even, 53-bit significand.  Overflow and subnormals are not modelled;
every value in this development lies well inside the normal range, where
this is exact IEEE semantics. -/
def fl (q : ℚ) : ℚ :=
  if q = 0 then 0
  else
    let a := if q < 0 then -q else q
    let e := qFloorLog2 a
    let scale : ℚ := 2 ^ (e - 52)
    (if q < 0 then (-1 : ℚ) else 1) * (pyRoundInt (a / scale) : ℚ) * scale


/-- `get_bmi` under faithful binary64 arithmetic: every Python operation
rounds its exact result through `fl` (`height_m ** 2` is the correctly
rounded square `fl (height_m * height_m)`). -/
def BodyMetrics.get_bmi_fl (s : BodyMetrics) : ℚ :=
  let height_m := fl (s.height / 100)
  let bmi := fl (s.weight / fl (height_m * height_m))
  check_value_overflow bmi 10 90

/-- `get_lbm_coefficient` under faithful binary64 arithmetic: literals are
the nearest doubles and every operation rounds, in Python evaluation order. -/
def BodyMetrics.get_lbm_coefficient_fl (s : BodyMetrics) : ℚ :=
  let lbm : ℚ :=
    if s.sex = Sex.female then
      fl (fl (fl (fl (fl (fl 0.14 * (s.impedance : ℚ)) + fl (fl 0.34 * s.height)) +
        fl (fl 0.33 * s.weight)) - fl (fl 0.16 * (s.age : ℚ))) - fl 6.68)
    else
      fl (fl (fl (fl (fl (fl 0.24 * (s.impedance : ℚ)) + fl (fl 0.41 * s.height)) +
        fl (fl 0.34 * s.weight)) - fl (fl 0.16 * (s.age : ℚ))) - fl 10.68)
  check_value_overflow lbm 10 120

/-- `get_fat_percentage` under faithful binary64 arithmetic.  Unlike the
exact-rational model, the constant folding `-5.4 - 10.8 = -16.2` is NOT
available here: the female branch subtracts `fl 5.4` and then `fl 10.8`,
the male branch subtracts `fl 16.2`, each step rounded, exactly as the
program's doubles behave. -/
def BodyMetrics.get_fat_percentage_fl (s : BodyMetrics) : ℚ :=
  let bmi := s.get_bmi_fl
  let fat : ℚ :=
    if s.sex = Sex.female then
      fl (fl (fl (fl (fl 1.20 * bmi) + fl (fl 0.23 * (s.age : ℚ))) - fl 5.4) - fl 10.8)
    else
      fl (fl (fl (fl 1.20 * bmi) + fl (fl 0.23 * (s.age : ℚ))) - fl 16.2)
  let fat : ℚ :=
    if 0 < s.impedance then
      let lbm := s.get_lbm_coefficient_fl
      let fat_impedance := fl (fl (fl (s.weight - lbm) / s.weight) * 100)
      fl (fl (fat + fat_impedance) / 2)
    else fat
  check_value_overflow fat 3 60

/-!
Helper lemmas about the clamp `_check_value_overflow` and Python rounding.
-/

/-- The clamp never goes below its lower bound (when the bounds are ordered). -/
theorem clamp_lower {v lo hi : ℚ} (h : lo ≤ hi) : lo ≤ check_value_overflow v lo hi :=
  le_min (le_max_right v lo) h

/-- The clamp never exceeds its upper bound. -/
theorem clamp_upper {v lo hi : ℚ} : check_value_overflow v lo hi ≤ hi :=
  min_le_right _ _

/-- Banker's rounding of a nonnegative rational to an integer is nonnegative. -/
theorem pyRoundInt_nonneg {q : ℚ} (h : 0 ≤ q) : 0 ≤ pyRoundInt q := by
  have h0 : (0 : ℤ) ≤ ⌊q⌋ := Int.floor_nonneg.mpr h
  unfold pyRoundInt
  split_ifs <;> omega

/-- Python `round` of a nonnegative rational is nonnegative. -/
theorem pyRound_nonneg {q : ℚ} (h : 0 ≤ q) (n : ℕ) : 0 ≤ pyRound q n := by
  unfold pyRound
  apply div_nonneg
  · exact_mod_cast pyRoundInt_nonneg (mul_nonneg h (by positivity))
  · positivity

/-- `get_lbm_coefficient` stays in its clamp range [10, 120]. -/
theorem get_lbm_coefficient_range (s : BodyMetrics) :
    10 ≤ s.get_lbm_coefficient ∧ s.get_lbm_coefficient ≤ 120 := by
  unfold BodyMetrics.get_lbm_coefficient
  exact ⟨clamp_lower (by norm_num), clamp_upper⟩

/-- `get_bmr` stays in its clamp range [500, 3000]. -/
theorem get_bmr_range (s : BodyMetrics) :
    500 ≤ s.get_bmr ∧ s.get_bmr ≤ 3000 := by
  unfold BodyMetrics.get_bmr
  exact ⟨clamp_lower (by norm_num), clamp_upper⟩

/-- `get_bmi` stays in its clamp range [10, 90]. -/
theorem get_bmi_range (s : BodyMetrics) :
    10 ≤ s.get_bmi ∧ s.get_bmi ≤ 90 := by
  unfold BodyMetrics.get_bmi
  exact ⟨clamp_lower (by norm_num), clamp_upper⟩

/-- `get_fat_percentage` stays in its clamp range [3, 60]. -/
theorem get_fat_percentage_range (s : BodyMetrics) :
    3 ≤ s.get_fat_percentage ∧ s.get_fat_percentage ≤ 60 := by
  unfold BodyMetrics.get_fat_percentage
  exact ⟨clamp_lower (by norm_num), clamp_upper⟩

/-- `get_water_percentage` stays in its clamp range [35, 75]. -/
theorem get_water_percentage_range (s : BodyMetrics) :
    35 ≤ s.get_water_percentage ∧ s.get_water_percentage ≤ 75 := by
  unfold BodyMetrics.get_water_percentage
  exact ⟨clamp_lower (by norm_num), clamp_upper⟩

/-- `get_bone_mass` stays in its clamp range [1, 4]. -/
theorem get_bone_mass_range (s : BodyMetrics) :
    1 ≤ s.get_bone_mass ∧ s.get_bone_mass ≤ 4 := by
  unfold BodyMetrics.get_bone_mass
  constructor
  · calc (1 : ℚ) ≤ 1.0 := by norm_num
    _ ≤ _ := clamp_lower (by norm_num)
  · calc check_value_overflow _ _ _ ≤ 4.0 := clamp_upper
    _ ≤ 4 := by norm_num

/-- `get_lean_mass` stays in its clamp range [10, 120]. -/
theorem get_lean_mass_range (s : BodyMetrics) :
    10 ≤ s.get_lean_mass ∧ s.get_lean_mass ≤ 120 := by
  unfold BodyMetrics.get_lean_mass
  exact ⟨clamp_lower (by norm_num), clamp_upper⟩

/-- `get_muscle_mass` stays in the clamp range of the stored sex:
[15, 45] for female, [25, 55] for male. -/
theorem get_muscle_mass_range (s : BodyMetrics) :
    (s.sex = Sex.female → 15 ≤ s.get_muscle_mass ∧ s.get_muscle_mass ≤ 45) ∧
    (s.sex = Sex.male → 25 ≤ s.get_muscle_mass ∧ s.get_muscle_mass ≤ 55) := by
  unfold BodyMetrics.get_muscle_mass
  split
  · rename_i hf
    refine ⟨fun _ => ⟨clamp_lower (by norm_num), clamp_upper⟩, fun hm => ?_⟩
    rw [hm] at hf; cases hf
  · rename_i hf
    exact ⟨fun hm => absurd hm hf, fun _ => ⟨clamp_lower (by norm_num), clamp_upper⟩⟩

/-- `get_visceral_fat` stays in its clamp range [1, 50]. -/
theorem get_visceral_fat_range (s : BodyMetrics) :
    1 ≤ s.get_visceral_fat ∧ s.get_visceral_fat ≤ 50 := by
  unfold BodyMetrics.get_visceral_fat
  exact ⟨clamp_lower (by norm_num), clamp_upper⟩

/-- `get_ideal_weight` stays in its clamp range [10, 120]. -/
theorem get_ideal_weight_range (s : BodyMetrics) :
    10 ≤ s.get_ideal_weight ∧ s.get_ideal_weight ≤ 120 := by
  unfold BodyMetrics.get_ideal_weight
  exact ⟨clamp_lower (by norm_num), clamp_upper⟩

/-- `get_protein_percentage` stays in its clamp range [5, 32]. -/
theorem get_protein_percentage_range (s : BodyMetrics) :
    5 ≤ s.get_protein_percentage ∧ s.get_protein_percentage ≤ 32 := by
  unfold BodyMetrics.get_protein_percentage
  exact ⟨clamp_lower (by norm_num), clamp_upper⟩

/-- Whenever `get_metabolic_age` returns a value, it lies in [15, 80]. -/
theorem get_metabolic_age_range (s : BodyMetrics) (v : ℚ)
    (hv : s.get_metabolic_age = .ok v) : 15 ≤ v ∧ v ≤ 80 := by
  unfold BodyMetrics.get_metabolic_age at hv
  split at hv <;> dsimp only at hv <;> split at hv
  · cases hv
  · simp only [Except.ok.injEq] at hv
    exact hv ▸ ⟨clamp_lower (by norm_num), clamp_upper⟩
  · cases hv
  · simp only [Except.ok.injEq] at hv
    exact hv ▸ ⟨clamp_lower (by norm_num), clamp_upper⟩

/-- `qLog2Up` computes the floor-log2 of a rational at least 1, given
enough fuel. -/
theorem qLog2Up_spec : ∀ (fuel n : ℕ) (a : ℚ), n < fuel →
    (2 : ℚ) ^ n ≤ a → a < (2 : ℚ) ^ (n + 1) → qLog2Up fuel a = (n : ℤ) := by
  intro fuel
  induction fuel with
  | zero => intro n a hn _ _; omega
  | succ f ih =>
    intro n a hn h1 h2
    cases n with
    | zero =>
      have ha2 : a < 2 := by simpa using h2
      simp [qLog2Up, ha2]
    | succ m =>
      have ha2 : ¬ a < 2 := by
        push_neg
        calc (2 : ℚ) = 2 ^ 1 := (pow_one 2).symm
        _ ≤ 2 ^ (m + 1) := pow_le_pow_right₀ (by norm_num) (by omega)
        _ ≤ a := h1
      rw [show qLog2Up (f + 1) a = if a < 2 then 0 else qLog2Up f (a / 2) + 1 from rfl,
        if_neg ha2]
      have hq := ih m (a / 2) (by omega)
        (by rw [le_div_iff₀ (by norm_num)]
            calc (2 : ℚ) ^ m * 2 = 2 ^ (m + 1) := by ring
            _ ≤ a := h1)
        (by rw [div_lt_iff₀ (by norm_num)]
            calc a < 2 ^ (m + 1 + 1) := h2
            _ = 2 ^ (m + 1) * 2 := by ring)
      rw [hq]
      push_cast
      ring

/-- `qLog2Down` computes the floor-log2 of a positive rational below 1,
given enough fuel. -/
theorem qLog2Down_spec : ∀ (fuel n : ℕ) (a : ℚ), n < fuel → 0 < a →
    1 ≤ a * 2 ^ n → a * 2 ^ n < 2 → qLog2Down fuel a = -(n : ℤ) := by
  intro fuel
  induction fuel with
  | zero => intro n a hn _ _ _; omega
  | succ f ih =>
    intro n a hn ha h1 h2
    by_cases hge : 1 ≤ a
    · have hn0 : n = 0 := by
        by_contra hne
        have h3 : (2 : ℚ) ≤ 2 ^ n := by
          calc (2 : ℚ) = 2 ^ 1 := (pow_one 2).symm
          _ ≤ 2 ^ n := pow_le_pow_right₀ (by norm_num) (by omega)
        have h4 : (2 : ℚ) ^ n ≤ a * 2 ^ n :=
          le_mul_of_one_le_left (by positivity) hge
        linarith
      subst hn0
      rw [show qLog2Down (f + 1) a = if 1 ≤ a then 0 else qLog2Down f (a * 2) - 1 from rfl,
        if_pos hge]
      norm_num
    · cases n with
      | zero =>
        rw [pow_zero, mul_one] at h1
        exact absurd h1 hge
      | succ m =>
        rw [show qLog2Down (f + 1) a = if 1 ≤ a then 0 else qLog2Down f (a * 2) - 1 from rfl,
          if_neg hge]
        have hq := ih m (a * 2) (by omega) (by positivity)
          (by calc (1 : ℚ) ≤ a * 2 ^ (m + 1) := h1
              _ = a * 2 * 2 ^ m := by ring)
          (by calc a * 2 * 2 ^ m = a * 2 ^ (m + 1) := by ring
              _ < 2 := h2)
        rw [hq]
        push_cast
        ring

/-- `qFloorLog2` is the floor of the base-2 logarithm: it returns `e`
whenever `2 ^ e ≤ a < 2 ^ (e + 1)` (for exponents within the fuel bound). -/
theorem qFloorLog2_spec (a : ℚ) (e : ℤ) (ha : 0 < a) (hlo : -150 ≤ e)
    (hhi : e ≤ 150) (h2 : (2 : ℚ) ^ e ≤ a) (h3 : a < (2 : ℚ) ^ (e + 1)) :
    qFloorLog2 a = e := by
  unfold qFloorLog2
  rcases le_or_lt 0 e with hpos | hneg
  · obtain ⟨n, rfl⟩ : ∃ n : ℕ, e = (n : ℤ) := ⟨e.toNat, by omega⟩
    rw [zpow_natCast] at h2
    have h3x : a < (2 : ℚ) ^ (n + 1) := by
      rw [show ((n : ℤ) + 1) = ((n + 1 : ℕ) : ℤ) by push_cast; ring,
        zpow_natCast] at h3
      exact h3
    have hge1 : (1 : ℚ) ≤ a := by
      calc (1 : ℚ) = 2 ^ 0 := by norm_num
      _ ≤ 2 ^ n := pow_le_pow_right₀ (by norm_num) (Nat.zero_le n)
      _ ≤ a := h2
    rw [if_pos hge1]
    exact qLog2Up_spec 200 n a (by omega) h2 h3x
  · obtain ⟨n, hn, rfl⟩ : ∃ n : ℕ, 0 < n ∧ e = -(n : ℤ) :=
      ⟨(-e).toNat, by omega, by omega⟩
    rw [zpow_neg, zpow_natCast] at h2
    have hpow : (0 : ℚ) < 2 ^ n := pow_pos (by norm_num) n
    have h1x : 1 ≤ a * 2 ^ n := by
      have h5 := mul_le_mul_of_nonneg_right h2 hpow.le
      rwa [inv_mul_cancel₀ (ne_of_gt hpow)] at h5
    have h2x : a * 2 ^ n < 2 := by
      have hrw : (-(n : ℤ) + 1) = -((n - 1 : ℕ) : ℤ) := by omega
      rw [hrw, zpow_neg, zpow_natCast] at h3
      have h4 := mul_lt_mul_of_pos_right h3 hpow
      have h5 : ((2 : ℚ) ^ (n - 1))⁻¹ * 2 ^ n = 2 := by
        rw [show n = (n - 1) + 1 by omega]
        have hp : (0 : ℚ) < 2 ^ (n - 1) := pow_pos (by norm_num) _
        field_simp
        ring
      linarith [h4, h5.le, h5.ge]
    have hlt1 : a < 1 := by
      by_contra hge
      push_neg at hge
      have h6 : (2 : ℚ) ≤ 2 ^ n := by
        calc (2 : ℚ) = 2 ^ 1 := (pow_one 2).symm
        _ ≤ 2 ^ n := pow_le_pow_right₀ (by norm_num) (by omega)
      have h7 : (2 : ℚ) ^ n ≤ a * 2 ^ n :=
        le_mul_of_one_le_left (by positivity) hge
      linarith
    rw [if_neg (not_le.mpr hlt1)]
    exact qLog2Down_spec 200 n a (by omega) ha h1x h2x

/-- Characterization of binary64 rounding on positive rationals: with the
exponent `e` of `q` supplied, `fl q` is the round-half-even integer multiple
of the ulp `2 ^ (e - 52)`. -/
theorem fl_spec (q : ℚ) (e : ℤ) (hq : 0 < q) (hlo : -150 ≤ e) (hhi : e ≤ 150)
    (h2 : (2 : ℚ) ^ e ≤ q) (h3 : q < (2 : ℚ) ^ (e + 1)) :
    fl q = (pyRoundInt (q / (2 : ℚ) ^ (e - 52)) : ℚ) * (2 : ℚ) ^ (e - 52) := by
  unfold fl
  rw [if_neg (ne_of_gt hq)]
  dsimp only
  rw [if_neg (not_lt.mpr hq.le), if_neg (not_lt.mpr hq.le),
    qFloorLog2_spec q e hq hlo hhi h2 h3, one_mul]


/-- C1: the accessors are NOT all total after successful construction.
The input weight = 10.35, height = 50, age = 51, sex = female,
impedance = 500 passes validation, yet `get_metabolic_age` divides by
`expected_bmr = 10*10.35 + 6.25*50 - 5*51 - 161 = 0` before the
`ratio > 0` guard is consulted, so the method raises `ZeroDivisionError`
(the `.error` outcome of the embedding). -/
theorem metabolic_age_zero_division_reachable :
    BodyMetrics.init 10.35 50 51 Sex.female 500 =
      .ok ⟨10.35, 50, 51, Sex.female, 500⟩ ∧
    BodyMetrics.get_metabolic_age ⟨10.35, 50, 51, Sex.female, 500⟩ =
      .error PyError.zeroDivision := by
  constructor
  · norm_num [BodyMetrics.init]
  · norm_num [BodyMetrics.get_metabolic_age]

/-- C2: for every input accepted by construction, each derived metric lies
within its documented clamp range; for `get_metabolic_age`, whenever it
returns a value at all, that value lies in [15, 80]. -/
theorem valid_metrics_within_clamp_ranges (s : BodyMetrics) (h : Valid s) :
    (10 ≤ s.get_lbm_coefficient ∧ s.get_lbm_coefficient ≤ 120) ∧
    (10 ≤ s.get_lean_mass ∧ s.get_lean_mass ≤ 120) ∧
    (500 ≤ s.get_bmr ∧ s.get_bmr ≤ 3000) ∧
    (3 ≤ s.get_fat_percentage ∧ s.get_fat_percentage ≤ 60) ∧
    (35 ≤ s.get_water_percentage ∧ s.get_water_percentage ≤ 75) ∧
    (1 ≤ s.get_bone_mass ∧ s.get_bone_mass ≤ 4) ∧
    ((s.sex = Sex.female → 15 ≤ s.get_muscle_mass ∧ s.get_muscle_mass ≤ 45) ∧
      (s.sex = Sex.male → 25 ≤ s.get_muscle_mass ∧ s.get_muscle_mass ≤ 55)) ∧
    (1 ≤ s.get_visceral_fat ∧ s.get_visceral_fat ≤ 50) ∧
    (10 ≤ s.get_bmi ∧ s.get_bmi ≤ 90) ∧
    (10 ≤ s.get_ideal_weight ∧ s.get_ideal_weight ≤ 120) ∧
    (5 ≤ s.get_protein_percentage ∧ s.get_protein_percentage ≤ 32) ∧
    (∀ v, s.get_metabolic_age = .ok v → 15 ≤ v ∧ v ≤ 80) :=
  ⟨get_lbm_coefficient_range s, get_lean_mass_range s, get_bmr_range s,
    get_fat_percentage_range s, get_water_percentage_range s,
    get_bone_mass_range s, get_muscle_mass_range s, get_visceral_fat_range s,
    get_bmi_range s, get_ideal_weight_range s, get_protein_percentage_range s,
    fun v hv => get_metabolic_age_range s v hv⟩

/-- Witness for C2 at weight = 70, height = 170, age = 30, male,
impedance = 450. -/
theorem valid_metrics_within_clamp_ranges_witness :
    Valid ⟨70, 170, 30, Sex.male, 450⟩ ∧
    (10 ≤ BodyMetrics.get_lbm_coefficient ⟨70, 170, 30, Sex.male, 450⟩ ∧
      BodyMetrics.get_lbm_coefficient ⟨70, 170, 30, Sex.male, 450⟩ ≤ 120) :=
  ⟨by decide, (valid_metrics_within_clamp_ranges ⟨70, 170, 30, Sex.male, 450⟩
    (by decide)).1⟩

/-- C3: construction succeeds exactly when height ∈ [50,220],
weight ∈ [10,200], age ∈ [1,99] and impedance ≤ 3000, and the raised
`ValueError` cites the offending field; in particular height = 221 fails
citing height, weight = 5 fails citing weight, and weight = 200 succeeds. -/
theorem init_validation_spec :
    (∀ (w hgt : ℚ) (a imp : ℤ) (sx : Sex),
        (∃ s, BodyMetrics.init w hgt a sx imp = .ok s) ↔
          ((50 ≤ hgt ∧ hgt ≤ 220) ∧ (10 ≤ w ∧ w ≤ 200) ∧
            (1 ≤ a ∧ a ≤ 99) ∧ imp ≤ 3000)) ∧
    BodyMetrics.init 70 221 30 Sex.male 500 =
      .error (ValidationError.height 221) ∧
    BodyMetrics.init 5 170 30 Sex.male 500 =
      .error (ValidationError.weight 5) ∧
    BodyMetrics.init 200 170 30 Sex.male 500 =
      .ok ⟨200, 170, 30, Sex.male, 500⟩ := by
  refine ⟨?_, by norm_num [BodyMetrics.init], by norm_num [BodyMetrics.init],
    by norm_num [BodyMetrics.init]⟩
  intro w hgt a imp sx
  unfold BodyMetrics.init
  split_ifs with h1 h2 h3 h4
  · exact ⟨(fun ⟨s, hs⟩ => nomatch hs), fun hr => absurd h4 (not_lt.mpr hr.2.2.2)⟩
  · exact ⟨fun _ => ⟨h1, h2, h3, not_lt.mp h4⟩, fun _ => ⟨_, rfl⟩⟩
  · exact ⟨(fun ⟨s, hs⟩ => nomatch hs), fun hr => absurd hr.2.2.1 h3⟩
  · exact ⟨(fun ⟨s, hs⟩ => nomatch hs), fun hr => absurd hr.2.1 h2⟩
  · exact ⟨(fun ⟨s, hs⟩ => nomatch hs), fun hr => absurd hr.1 h1⟩

/-- C4: for every valid input, with either sex, `get_body_type` returns an
integer in {0, 1, 2, 3, 4, 5, 6, 7, 8}. -/
theorem body_type_in_categories (s : BodyMetrics) (h : Valid s) :
    s.get_body_type ∈ ({0, 1, 2, 3, 4, 5, 6, 7, 8} : Finset ℤ) := by
  unfold BodyMetrics.get_body_type
  dsimp only
  split_ifs <;> decide

/-- Witness for C4 at weight = 70, height = 170, age = 30, male,
impedance = 450. -/
theorem body_type_in_categories_witness :
    Valid ⟨70, 170, 30, Sex.male, 450⟩ ∧
    BodyMetrics.get_body_type ⟨70, 170, 30, Sex.male, 450⟩ ∈
      ({0, 1, 2, 3, 4, 5, 6, 7, 8} : Finset ℤ) :=
  ⟨by decide, body_type_in_categories ⟨70, 170, 30, Sex.male, 450⟩ (by decide)⟩

/-- C5: `get_fat_mass_to_ideal` returns direction `to_lose` exactly when the
current fat mass (weight x fat%/100) exceeds the target fat mass
(ideal weight x 15% male / 22% female), `to_gain` otherwise (including
equality), and the returned magnitude is always nonnegative. -/
theorem fat_mass_to_ideal_direction_spec (s : BodyMetrics) (h : Valid s) :
    (s.get_fat_mass_to_ideal.type = FatMassDirection.to_lose ↔
      s.get_ideal_weight * ((if s.sex = Sex.male then (15 : ℚ) else 22) / 100) <
        s.weight * (s.get_fat_percentage / 100)) ∧
    0 ≤ s.get_fat_mass_to_ideal.mass := by
  unfold BodyMetrics.get_fat_mass_to_ideal
  dsimp only
  split <;> split <;> rename_i hd
  · exact ⟨⟨fun _ => sub_pos.mp hd, fun _ => rfl⟩, pyRound_nonneg hd.le 2⟩
  · exact ⟨⟨(fun heq => nomatch heq), fun hlt => absurd (sub_pos.mpr hlt) hd⟩,
      pyRound_nonneg (abs_nonneg _) 2⟩
  · exact ⟨⟨fun _ => sub_pos.mp hd, fun _ => rfl⟩, pyRound_nonneg hd.le 2⟩
  · exact ⟨⟨(fun heq => nomatch heq), fun hlt => absurd (sub_pos.mpr hlt) hd⟩,
      pyRound_nonneg (abs_nonneg _) 2⟩

/-- Witness for C5 at weight = 70, height = 170, age = 30, male,
impedance = 450. -/
theorem fat_mass_to_ideal_direction_spec_witness :
    Valid ⟨70, 170, 30, Sex.male, 450⟩ ∧
    0 ≤ (BodyMetrics.get_fat_mass_to_ideal ⟨70, 170, 30, Sex.male, 450⟩).mass :=
  ⟨by decide,
    (fat_mass_to_ideal_direction_spec ⟨70, 170, 30, Sex.male, 450⟩ (by decide)).2⟩

/-- C6: `get_bmr` equals the Mifflin-St Jeor value
`10*weight + 6.25*height - 5*age + (5 male / -161 female)` clamped to
[500, 3000]; whenever the raw value is below 500 the result is exactly 500,
and whenever it is above 3000 the result is exactly 3000. -/
theorem bmr_mifflin_clamped (s : BodyMetrics) (h : Valid s) :
    s.get_bmr =
      check_value_overflow
        (10 * s.weight + 6.25 * s.height - 5 * (s.age : ℚ) +
          (if s.sex = Sex.male then 5 else -161)) 500 3000 ∧
    (10 * s.weight + 6.25 * s.height - 5 * (s.age : ℚ) +
        (if s.sex = Sex.male then 5 else -161) < 500 → s.get_bmr = 500) ∧
    (3000 < 10 * s.weight + 6.25 * s.height - 5 * (s.age : ℚ) +
        (if s.sex = Sex.male then 5 else -161) → s.get_bmr = 3000) := by
  have heq : s.get_bmr =
      check_value_overflow
        (10 * s.weight + 6.25 * s.height - 5 * (s.age : ℚ) +
          (if s.sex = Sex.male then 5 else -161)) 500 3000 := rfl
  refine ⟨heq, fun hlt => ?_, fun hgt => ?_⟩
  · rw [heq]; unfold check_value_overflow
    rw [max_eq_right hlt.le, min_eq_left (by norm_num)]
  · rw [heq]; unfold check_value_overflow
    rw [max_eq_left (by linarith), min_eq_right hgt.le]

/-- Witness for C6 at weight = 10, height = 50, age = 99, female,
impedance = 500, where the raw Mifflin-St Jeor value is -243.5 < 500 and
the result is the clamp bound 500. -/
theorem bmr_mifflin_clamped_witness :
    Valid ⟨10, 50, 99, Sex.female, 500⟩ ∧
    BodyMetrics.get_bmr ⟨10, 50, 99, Sex.female, 500⟩ = 500 :=
  ⟨by decide,
    (bmr_mifflin_clamped ⟨10, 50, 99, Sex.female, 500⟩ (by decide)).2.1
      (by split <;> norm_num)⟩

/-- C7: `get_all_metrics` is deterministic — calling it a second time on the
state left by a first call returns exactly the same outcome. -/
theorem all_metrics_deterministic (s : BodyMetrics) (h : Valid s) :
    (s.call_get_all_metrics).1 =
      ((s.call_get_all_metrics).2.call_get_all_metrics).1 := rfl

/-- Witness for C7 at the spec's fixed input weight = 70, height = 170,
age = 30, male, impedance = 450. -/
theorem all_metrics_deterministic_witness :
    Valid ⟨70, 170, 30, Sex.male, 450⟩ ∧
    (BodyMetrics.call_get_all_metrics ⟨70, 170, 30, Sex.male, 450⟩).1 =
      ((BodyMetrics.call_get_all_metrics
          ⟨70, 170, 30, Sex.male, 450⟩).2.call_get_all_metrics).1 :=
  ⟨by decide, all_metrics_deterministic ⟨70, 170, 30, Sex.male, 450⟩ (by decide)⟩

/-- C8: every accessor call, including `get_all_metrics`, leaves the five
stored fields unchanged: the state after the call equals the state before. -/
theorem accessors_preserve_state (s : BodyMetrics) :
    (s.call_get_lbm_coefficient).2 = s ∧
    (s.call_get_bmr).2 = s ∧
    (s.call_get_bmi).2 = s ∧
    (s.call_get_fat_percentage).2 = s ∧
    (s.call_get_water_percentage).2 = s ∧
    (s.call_get_bone_mass).2 = s ∧
    (s.call_get_lean_mass).2 = s ∧
    (s.call_get_muscle_mass).2 = s ∧
    (s.call_get_visceral_fat).2 = s ∧
    (s.call_get_ideal_weight).2 = s ∧
    (s.call_get_fat_mass_to_ideal).2 = s ∧
    (s.call_get_protein_percentage).2 = s ∧
    (s.call_get_body_type).2 = s ∧
    (s.call_get_metabolic_age).2 = s ∧
    (s.call_get_all_metrics).2 = s :=
  ⟨rfl, rfl, rfl, rfl, rfl, rfl, rfl, rfl, rfl, rfl, rfl, rfl, rfl, rfl, rfl⟩

/-- C9: any impedance not exceeding 3000 — negative values included — is
accepted by construction, and with impedance ≤ 0 `get_fat_percentage` skips
the impedance-derived averaging branch, returning the plain BMI-and-age
estimate. -/
theorem negative_impedance_accepted (w hgt : ℚ) (a imp : ℤ) (sx : Sex)
    (hh : 50 ≤ hgt ∧ hgt ≤ 220) (hw : 10 ≤ w ∧ w ≤ 200)
    (ha : 1 ≤ a ∧ a ≤ 99) (himp : imp < 0) :
    BodyMetrics.init w hgt a sx imp = .ok ⟨w, hgt, a, sx, imp⟩ ∧
    BodyMetrics.get_fat_percentage ⟨w, hgt, a, sx, imp⟩ =
      check_value_overflow
        (1.20 * BodyMetrics.get_bmi ⟨w, hgt, a, sx, imp⟩ + 0.23 * (a : ℚ) -
          (if sx = Sex.female then 5.4 + 10.8 else 16.2)) 3 60 := by
  constructor
  · unfold BodyMetrics.init
    rw [if_neg (not_not_intro hh), if_neg (not_not_intro hw),
      if_neg (not_not_intro ha), if_neg (by omega)]
  · unfold BodyMetrics.get_fat_percentage
    dsimp only
    rw [if_neg (show ¬((0 : ℤ) < imp) by omega)]
    cases sx
    · rw [if_neg (show ¬(Sex.male = Sex.female) from fun hc => nomatch hc),
        if_neg (show ¬(Sex.male = Sex.female) from fun hc => nomatch hc)]
    · rw [if_pos rfl, if_pos rfl]
      congr 1
      ring

/-- Witness for C9 at weight = 70, height = 170, age = 30, male,
impedance = -100. -/
theorem negative_impedance_accepted_witness :
    BodyMetrics.init 70 170 30 Sex.male (-100) =
      .ok ⟨70, 170, 30, Sex.male, -100⟩ ∧
    BodyMetrics.get_fat_percentage ⟨70, 170, 30, Sex.male, -100⟩ =
      check_value_overflow
        (1.20 * BodyMetrics.get_bmi ⟨70, 170, 30, Sex.male, -100⟩ +
          0.23 * ((30 : ℤ) : ℚ) -
          (if Sex.male = Sex.female then 5.4 + 10.8 else 16.2)) 3 60 :=
  negative_impedance_accepted 70 170 30 (-100) Sex.male
    (by norm_num) (by norm_num) (by norm_num) (by norm_num)

/-- C10 (amended): in exact rational arithmetic, with impedance ≤ 0,
`get_fat_percentage` does not depend on sex: the female constants
-5.4 - 10.8 and the male constant -16.2 coincide exactly, and no other part
of the computation reads the sex.  (In the program's binary64 arithmetic the
two branches round differently and the results can differ in the final
ulps, as the accompanying binary64 counterexample shows.) -/
theorem fat_percentage_sex_independent (w hgt : ℚ) (a imp : ℤ)
    (hh : 50 ≤ hgt ∧ hgt ≤ 220) (hw : 10 ≤ w ∧ w ≤ 200)
    (ha : 1 ≤ a ∧ a ≤ 99) (himp : imp ≤ 0) :
    BodyMetrics.get_fat_percentage ⟨w, hgt, a, Sex.male, imp⟩ =
      BodyMetrics.get_fat_percentage ⟨w, hgt, a, Sex.female, imp⟩ := by
  have hbmi : BodyMetrics.get_bmi ⟨w, hgt, a, Sex.male, imp⟩ =
      BodyMetrics.get_bmi ⟨w, hgt, a, Sex.female, imp⟩ := rfl
  unfold BodyMetrics.get_fat_percentage
  dsimp only
  rw [if_neg (show ¬((0 : ℤ) < imp) by omega),
    if_neg (show ¬((0 : ℤ) < imp) by omega),
    if_neg (show ¬(Sex.male = Sex.female) from fun hc => nomatch hc),
    if_pos rfl, hbmi]
  congr 1
  ring

/-- Witness for C10 at weight = 70, height = 170, age = 30,
impedance = -100. -/
theorem fat_percentage_sex_independent_witness :
    BodyMetrics.get_fat_percentage ⟨70, 170, 30, Sex.male, -100⟩ =
      BodyMetrics.get_fat_percentage ⟨70, 170, 30, Sex.female, -100⟩ :=
  fat_percentage_sex_independent 70 170 30 (-100)
    (by norm_num) (by norm_num) (by norm_num) (by norm_num)

/-- C10 counterexample: the claim is false of the program's binary64
arithmetic.  At the valid input weight = 10, height = 100, age = 40,
impedance = -100 (impedance-averaging skipped), the male branch computes
`fl (t3 - fl 16.2)` where the female branch computes
`fl (fl (t3 - fl 5.4) - fl 10.8)`, and the two roundings land on different
doubles: 5.0000000000000036 (= 1407374883553281 / 2^48) for male versus
5.000000000000002 (= 2814749767106561 / 2^49) for female. -/
theorem fat_percentage_float_sex_dependent :
    BodyMetrics.init 10 100 40 Sex.male (-100) =
      .ok ⟨10, 100, 40, Sex.male, -100⟩ ∧
    BodyMetrics.init 10 100 40 Sex.female (-100) =
      .ok ⟨10, 100, 40, Sex.female, -100⟩ ∧
    BodyMetrics.get_fat_percentage_fl ⟨10, 100, 40, Sex.male, -100⟩ =
      1407374883553281 / 281474976710656 ∧
    BodyMetrics.get_fat_percentage_fl ⟨10, 100, 40, Sex.female, -100⟩ =
      2814749767106561 / 562949953421312 ∧
    BodyMetrics.get_fat_percentage_fl ⟨10, 100, 40, Sex.male, -100⟩ ≠
      BodyMetrics.get_fat_percentage_fl ⟨10, 100, 40, Sex.female, -100⟩ := by
  have e1 : fl (1 : ℚ) = 1 := by
    rw [fl_spec 1 0 (by norm_num) (by norm_num) (by norm_num)
      (by norm_num) (by norm_num)]
    norm_num [pyRoundInt, -Int.self_sub_floor]
  have e10 : fl (10 : ℚ) = 10 := by
    rw [fl_spec 10 3 (by norm_num) (by norm_num) (by norm_num)
      (by norm_num) (by norm_num)]
    norm_num [pyRoundInt, -Int.self_sub_floor]
  have ec12 : fl (6 / 5 : ℚ) = 5404319552844595 / 4503599627370496 := by
    rw [fl_spec (6 / 5) 0 (by norm_num) (by norm_num) (by norm_num)
      (by norm_num) (by norm_num)]
    norm_num [pyRoundInt, -Int.self_sub_floor]
  have et1 : fl (27021597764222975 / 2251799813685248 : ℚ) = 12 := by
    rw [fl_spec (27021597764222975 / 2251799813685248) 3 (by norm_num) (by norm_num)
      (by norm_num) (by norm_num) (by norm_num)]
    norm_num [pyRoundInt, -Int.self_sub_floor]
  have ec023 : fl (23 / 100 : ℚ) = 8286623314361713 / 36028797018963968 := by
    rw [fl_spec (23 / 100) (-3) (by norm_num) (by norm_num) (by norm_num)
      (by norm_num) (by norm_num)]
    norm_num [pyRoundInt, -Int.self_sub_floor]
  have et2 : fl (41433116571808565 / 4503599627370496 : ℚ) =
      5179139571476071 / 562949953421312 := by
    rw [fl_spec (41433116571808565 / 4503599627370496) 3 (by norm_num) (by norm_num)
      (by norm_num) (by norm_num) (by norm_num)]
    norm_num [pyRoundInt, -Int.self_sub_floor]
  have et3 : fl (11934539012531815 / 562949953421312 : ℚ) =
      1491817376566477 / 70368744177664 := by
    rw [fl_spec (11934539012531815 / 562949953421312) 4 (by norm_num) (by norm_num)
      (by norm_num) (by norm_num) (by norm_num)]
    norm_num [pyRoundInt, -Int.self_sub_floor]
  have ec162 : fl (81 / 5 : ℚ) = 4559894622712627 / 281474976710656 := by
    rw [fl_spec (81 / 5) 4 (by norm_num) (by norm_num) (by norm_num)
      (by norm_num) (by norm_num)]
    norm_num [pyRoundInt, -Int.self_sub_floor]
  have et4m : fl (1407374883553281 / 281474976710656 : ℚ) =
      1407374883553281 / 281474976710656 := by
    rw [fl_spec (1407374883553281 / 281474976710656) 2 (by norm_num) (by norm_num)
      (by norm_num) (by norm_num) (by norm_num)]
    norm_num [pyRoundInt, -Int.self_sub_floor]
  have ec54 : fl (27 / 5 : ℚ) = 3039929748475085 / 562949953421312 := by
    rw [fl_spec (27 / 5) 2 (by norm_num) (by norm_num) (by norm_num)
      (by norm_num) (by norm_num)]
    norm_num [pyRoundInt, -Int.self_sub_floor]
  have et4f : fl (8894609264056731 / 562949953421312 : ℚ) =
      8894609264056731 / 562949953421312 := by
    rw [fl_spec (8894609264056731 / 562949953421312) 3 (by norm_num) (by norm_num)
      (by norm_num) (by norm_num) (by norm_num)]
    norm_num [pyRoundInt, -Int.self_sub_floor]
  have ec108 : fl (54 / 5 : ℚ) = 3039929748475085 / 281474976710656 := by
    rw [fl_spec (54 / 5) 3 (by norm_num) (by norm_num) (by norm_num)
      (by norm_num) (by norm_num)]
    norm_num [pyRoundInt, -Int.self_sub_floor]
  have et5f : fl (2814749767106561 / 562949953421312 : ℚ) =
      2814749767106561 / 562949953421312 := by
    rw [fl_spec (2814749767106561 / 562949953421312) 2 (by norm_num) (by norm_num)
      (by norm_num) (by norm_num) (by norm_num)]
    norm_num [pyRoundInt, -Int.self_sub_floor]
  have hmf : ¬ (Sex.male = Sex.female) := fun h => nomatch h
  have hbmiM : BodyMetrics.get_bmi_fl ⟨10, 100, 40, Sex.male, -100⟩ = 10 := by
    unfold BodyMetrics.get_bmi_fl
    norm_num [e1, e10, check_value_overflow, min_def, max_def]
  have hbmiF : BodyMetrics.get_bmi_fl ⟨10, 100, 40, Sex.female, -100⟩ = 10 := by
    unfold BodyMetrics.get_bmi_fl
    norm_num [e1, e10, check_value_overflow, min_def, max_def]
  have hmale : BodyMetrics.get_fat_percentage_fl ⟨10, 100, 40, Sex.male, -100⟩ =
      1407374883553281 / 281474976710656 := by
    unfold BodyMetrics.get_fat_percentage_fl
    norm_num [hbmiM, hmf, ec12, et1, ec023, et2, et3, ec162, et4m,
      check_value_overflow, min_def, max_def]
  have hfem : BodyMetrics.get_fat_percentage_fl ⟨10, 100, 40, Sex.female, -100⟩ =
      2814749767106561 / 562949953421312 := by
    unfold BodyMetrics.get_fat_percentage_fl
    norm_num [hbmiF, hmf, ec12, et1, ec023, et2, et3, ec54, et4f, ec108, et5f,
      check_value_overflow, min_def, max_def]
  refine ⟨by norm_num [BodyMetrics.init], by norm_num [BodyMetrics.init],
    hmale, hfem, ?_⟩
  rw [hmale, hfem]
  norm_num

end MiScale
